import Mathlib

/-!
Shallow embedding of `kube-scanner` (`src/main.go`) and proofs about its
spec claims.

The Go program fetches Kubernetes objects, canonicalizes each via `extract`
(a type switch copying a fixed field set into a fresh zero value), filters
RBAC bindings by a substring match over subject names, back-annotates type
metadata, serializes to YAML, and writes files under a namespace/kind
directory layout.

Modelling conventions:
- Go structs become Lean structures; payload structs whose internals no
  claim inspects (DeploymentSpec, pod/secret payloads, status blocks) are
  opaque wrapper structures, copied or zeroed whole exactly as the Go code
  copies or zeroes the whole field.
- `interface{}` values reaching `extract` become the sum `SourceValue`,
  which records the Go dynamic type including pointer-ness, since the Go
  type switch distinguishes `T` from `*T`.
- `runtime.Object` results become `Option RuntimeObject`; the Go `nil`
  sentinel is `none`.  `DeepCopyObject()` on a value `T` returns a `*T`,
  so re-feeding an `extract` result corresponds to a pointer variant
  (`asSourceValue`).
- `log.Fatal` (abort with non-zero exit) is modelled as an aborted-flag;
  fallible API calls are `Except Unit` results supplied by a
  `ResourceSource` record standing for the client-go clientset.
-/

/-- Opaque payload: `appsv1.DeploymentSpec`.  Its internals are never
inspected; `extract` copies the whole field. -/
structure DeploymentSpec where
  raw : String
deriving DecidableEq

/-- Opaque payload: `appsv1.DeploymentStatus`; never copied by `extract`,
so canonical output carries the zero value. -/
structure DeploymentStatus where
  raw : String := ""
deriving DecidableEq

/-- Opaque payload: `corev1.PodSpec`. -/
structure PodSpec where
  raw : String
deriving DecidableEq

/-- Opaque payload: `corev1.PodStatus`. -/
structure PodStatus where
  raw : String := ""
deriving DecidableEq

/-- `metav1.TypeMeta`: kind plus apiVersion. -/
structure TypeMeta where
  kind : String := ""
  apiVersion : String := ""
deriving DecidableEq

/-- `metav1.ObjectMeta`, restricted to the fields the spec's claims talk
about: identity (name, namespace, labels) and server-managed bookkeeping
(annotations, resourceVersion, uid, creationTimestamp).  Go maps are
modelled as association lists.  `nspace` stands for the Go field
`Namespace` (`namespace` is a Lean keyword). -/
structure ObjectMeta where
  name : String := ""
  nspace : String := ""
  labels : List (String × String) := []
  annotations : List (String × String) := []
  resourceVersion : String := ""
  uid : String := ""
  creationTimestamp : String := ""
deriving DecidableEq

/-- `rbacv1.Subject`: identity reference inside a binding. -/
structure Subject where
  kind : String := ""
  apiGroup : String := ""
  name : String := ""
  nspace : String := ""
deriving DecidableEq

/-- `rbacv1.RoleRef`. -/
structure RoleRef where
  apiGroup : String := ""
  kind : String := ""
  name : String := ""
deriving DecidableEq

/-- `rbacv1.PolicyRule`. -/
structure PolicyRule where
  verbs : List String := []
  apiGroups : List String := []
  resources : List String := []
  resourceNames : List String := []
  nonResourceURLs : List String := []
deriving DecidableEq

/-- `appsv1.Deployment`. -/
structure Deployment where
  typeMeta : TypeMeta := {}
  objectMeta : ObjectMeta := {}
  spec : DeploymentSpec := ⟨""⟩
  status : DeploymentStatus := {}
deriving DecidableEq

/-- `rbacv1.Role`. -/
structure Role where
  typeMeta : TypeMeta := {}
  objectMeta : ObjectMeta := {}
  rules : List PolicyRule := []
deriving DecidableEq

/-- `rbacv1.RoleBinding`. -/
structure RoleBinding where
  typeMeta : TypeMeta := {}
  objectMeta : ObjectMeta := {}
  subjects : List Subject := []
  roleRef : RoleRef := {}
deriving DecidableEq

/-- `rbacv1.ClusterRoleBinding`. -/
structure ClusterRoleBinding where
  typeMeta : TypeMeta := {}
  objectMeta : ObjectMeta := {}
  subjects : List Subject := []
  roleRef : RoleRef := {}
deriving DecidableEq

/-- `rbacv1.ClusterRole`.  `aggregationRule` is an opaque optional payload
that `extract` never copies. -/
structure ClusterRole where
  typeMeta : TypeMeta := {}
  objectMeta : ObjectMeta := {}
  rules : List PolicyRule := []
  aggregationRule : Option String := none
deriving DecidableEq

/-- `corev1.Pod` (appears in the spec's kind set; `main.go` never fetches
or switches on it). -/
structure Pod where
  typeMeta : TypeMeta := {}
  objectMeta : ObjectMeta := {}
  spec : PodSpec := ⟨""⟩
  status : PodStatus := {}
deriving DecidableEq

/-- `corev1.Secret` (appears in the spec's kind set; `main.go` never
fetches or switches on it). -/
structure Secret where
  typeMeta : TypeMeta := {}
  objectMeta : ObjectMeta := {}
  data : List (String × String) := []
  secretType : String := ""
deriving DecidableEq

/-- A non-nil `runtime.Object` as produced by `extract`
(`DeepCopyObject()` results). -/
inductive RuntimeObject where
  | deployment (d : Deployment)
  | roleBinding (b : RoleBinding)
  | role (r : Role)
  | clusterRoleBinding (b : ClusterRoleBinding)
  | clusterRole (r : ClusterRole)
deriving DecidableEq

/-- The dynamic type of the `interface{}` argument of `extract`.  The Go
type switch distinguishes value types from pointer types, so both
representations appear for every kind of the spec's tagged union. -/
inductive SourceValue where
  | deploymentVal (d : Deployment)
  | deploymentPtr (d : Deployment)
  | roleBindingVal (b : RoleBinding)
  | roleBindingPtr (b : RoleBinding)
  | roleVal (r : Role)
  | rolePtr (r : Role)
  | clusterRoleBindingVal (b : ClusterRoleBinding)
  | clusterRoleBindingPtr (b : ClusterRoleBinding)
  | clusterRoleVal (r : ClusterRole)
  | clusterRolePtr (r : ClusterRole)
  | podVal (p : Pod)
  | podPtr (p : Pod)
  | secretVal (s : Secret)
  | secretPtr (s : Secret)
deriving DecidableEq

/-- `extract` (`main.go` lines 31-87): type switch over
`appsv1.Deployment`, `rbacv1.RoleBinding`, `rbacv1.Role`,
`rbacv1.ClusterRoleBinding` (value cases) and `*rbacv1.ClusterRole`
(pointer case).  Each case builds a zero value and copies TypeMeta,
Labels, Name, Namespace (except ClusterRole, which skips Namespace) and
the kind-specific payload.  Any other dynamic type falls through to
`return nil`, modelled as `none`. -/
def extract : SourceValue → Option RuntimeObject
  | .deploymentVal v =>
      some (.deployment
        { typeMeta := v.typeMeta
          objectMeta := { labels := v.objectMeta.labels
                          name := v.objectMeta.name
                          nspace := v.objectMeta.nspace }
          spec := v.spec })
  | .roleBindingVal v =>
      some (.roleBinding
        { typeMeta := v.typeMeta
          objectMeta := { labels := v.objectMeta.labels
                          name := v.objectMeta.name
                          nspace := v.objectMeta.nspace }
          roleRef := v.roleRef
          subjects := v.subjects })
  | .roleVal v =>
      some (.role
        { typeMeta := v.typeMeta
          objectMeta := { labels := v.objectMeta.labels
                          name := v.objectMeta.name
                          nspace := v.objectMeta.nspace }
          rules := v.rules })
  | .clusterRoleBindingVal v =>
      some (.clusterRoleBinding
        { typeMeta := v.typeMeta
          objectMeta := { labels := v.objectMeta.labels
                          name := v.objectMeta.name
                          nspace := v.objectMeta.nspace }
          roleRef := v.roleRef
          subjects := v.subjects })
  | .clusterRolePtr v =>
      some (.clusterRole
        { typeMeta := v.typeMeta
          objectMeta := { labels := v.objectMeta.labels
                          name := v.objectMeta.name }
          rules := v.rules })
  | _ => none

/-- The dynamic type of an `extract` result when fed back into
`extract`: `DeepCopyObject()` on each case returns a pointer (`*T`), so
every produced object re-enters the switch as a pointer variant. -/
def asSourceValue : RuntimeObject → SourceValue
  | .deployment d => .deploymentPtr d
  | .roleBinding b => .roleBindingPtr b
  | .role r => .rolePtr r
  | .clusterRoleBinding b => .clusterRoleBindingPtr b
  | .clusterRole r => .clusterRolePtr r

/-- Composing the canonicalizer with itself: apply `extract`, and when it
produced an object, apply `extract` again to that object (which at the Go
level is a pointer). -/
def extractTwice (x : SourceValue) : Option RuntimeObject :=
  match extract x with
  | none => none
  | some o => extract (asSourceValue o)

/-- Does `pat` occur at the start of `s`?  Helper embedding the scan of
Go's `strings.Contains`/`strings.Index` at one position (byte-level Go
strings are modelled as `List Char`). -/
def startsWithList : List Char → List Char → Bool
  | _, [] => true
  | [], _ :: _ => false
  | c :: cs, d :: ds => c = d && startsWithList cs ds

/-- Go `strings.Contains s pat`: `pat` occurs as a contiguous substring
of `s`; the empty pattern is contained in every string. -/
def containsList : List Char → List Char → Bool
  | [], pat => pat.isEmpty
  | c :: cs, pat => startsWithList (c :: cs) pat || containsList cs pat

/-- `isUserDefined` (`main.go` line 159): `strings.Contains(s, lookFor)`. -/
def isUserDefined (s lookFor : String) : Bool :=
  containsList s.data lookFor.data

/-- `containsUserDefined` (`main.go` lines 163-170): scans the subject
list in order, returning at the first subject whose name satisfies
`isUserDefined`; `false` when the list is exhausted. -/
def containsUserDefined : List Subject → String → Bool
  | [], _ => false
  | subject :: rest, lookFor =>
    if isUserDefined subject.name lookFor then true
    else containsUserDefined rest lookFor

/-- `schema.GroupVersionKind`. -/
structure GroupVersionKind where
  group : String := ""
  version : String := ""
  kind : String := ""
deriving DecidableEq

/-- `runtime.APIVersionInternal`. -/
def APIVersionInternal : String := "__internal"

/-- `gvk.GroupVersion().String()`: `version` when the group is empty,
else `group + "/" + version` (the form `SetGroupVersionKind` stores in
`TypeMeta.APIVersion`). -/
def gvkApiVersion (g : GroupVersionKind) : String :=
  if g.group = "" then g.version else g.group ++ "/" ++ g.version

/-- `obj.GetObjectKind().SetGroupVersionKind(gvk)`: overwrites the
object's TypeMeta with the given kind and apiVersion. -/
def setGroupVersionKind (o : RuntimeObject) (g : GroupVersionKind) : RuntimeObject :=
  let tm : TypeMeta := { kind := g.kind, apiVersion := gvkApiVersion g }
  match o with
  | .deployment d => .deployment { d with typeMeta := tm }
  | .roleBinding b => .roleBinding { b with typeMeta := tm }
  | .role r => .role { r with typeMeta := tm }
  | .clusterRoleBinding b => .clusterRoleBinding { b with typeMeta := tm }
  | .clusterRole r => .clusterRole { r with typeMeta := tm }

/-- The loop body of `addTypeInformationToObject`: walk the returned
gvks, skip entries with empty kind, empty version, or the internal
version sentinel, set the first acceptable one and break; if none is
acceptable the object is left unchanged. -/
def applyFirstValidGVK (o : RuntimeObject) : List GroupVersionKind → RuntimeObject
  | [] => o
  | g :: rest =>
    if g.kind.length = 0 then applyFirstValidGVK o rest
    else if g.version.length = 0 || g.version = APIVersionInternal then
      applyFirstValidGVK o rest
    else setGroupVersionKind o g

/-- `addTypeInformationToObject` (`main.go` lines 127-147):
`scheme.Scheme.ObjectKinds(obj)` is the scheme-registry collaborator,
passed here as the function `objectKinds`.  A lookup error is wrapped and
returned to the caller; otherwise the first fully-qualified gvk is
attached and `nil` error returned. -/
def addTypeInformationToObject
    (objectKinds : RuntimeObject → Except Unit (List GroupVersionKind))
    (obj : RuntimeObject) : Except Unit RuntimeObject :=
  match objectKinds obj with
  | .error _ => .error ()
  | .ok gvks => .ok (applyFirstValidGVK obj gvks)

/-- The object `toYaml` (`main.go` lines 149-157) hands to
`s.Encode`: `toYaml` calls `addTypeInformationToObject(c)` and DISCARDS
its error, so on lookup failure the unannotated `c` itself is encoded;
on success the annotated object is encoded.  (The serializer is an
external collaborator; its own `Encode` failure path, `log.Fatal`, is
not reached by the annotation error.) -/
def toYamlEncoded
    (objectKinds : RuntimeObject → Except Unit (List GroupVersionKind))
    (c : RuntimeObject) : RuntimeObject :=
  match addTypeInformationToObject objectKinds c with
  | .error _ => c
  | .ok c2 => c2

/-- The directory part of `fileWriter.flush` (`main.go` lines 99-118):
`root + "/namespaces/" + ns + "/" + resourceType` when the namespace is
non-empty, else `root + "/non_namespaced/" + resourceType`. -/
def flushDir (rootDir nspace resourceType : String) : String :=
  if nspace ≠ "" then rootDir ++ "/namespaces/" ++ nspace ++ "/" ++ resourceType
  else rootDir ++ "/non_namespaced/" ++ resourceType

/-- The full file path `flush` writes: directory plus `"/" + name`. -/
def flushFile (rootDir nspace name resourceType : String) : String :=
  flushDir rootDir nspace resourceType ++ "/" ++ name

/-- The client-go clientset as used by `main`: each call either fails
(`log.Fatal`-worthy API error, modelled as `Except.error ()`) or returns
the decoded items.  `listRoles ns name` stands for
`Roles(ns).List(..., FieldSelector metadata.name=name)`;
`getClusterRole name` stands for `ClusterRoles().Get(..., name, ...)`. -/
structure ResourceSource where
  listDeployments : Except Unit (List Deployment)
  listRoleBindings : Except Unit (List RoleBinding)
  listRoles : String → String → Except Unit (List Role)
  listClusterRoleBindings : Except Unit (List ClusterRoleBinding)
  getClusterRole : String → Except Unit ClusterRole

/-- One completed `toYaml` + `flush` pair: the flush arguments
(namespace, name, resource-type label) together with the object that was
handed to `toYaml` (the `extract` result). -/
structure WriteEvent where
  nspace : String
  name : String
  resourceType : String
  obj : Option RuntimeObject
deriving DecidableEq

/-- The writes produced for one kept role binding's referenced roles
(`main.go` lines 236-243): the error of
`roles, _ := clientset.RbacV1().Roles(ns).List(...)` is DISCARDED by the
blank identifier; on error there are no items to iterate, so no role is
written and the run continues. -/
def roleWritesFor (src : ResourceSource) (b : RoleBinding) : List WriteEvent :=
  match src.listRoles b.objectMeta.nspace b.roleRef.name with
  | .error _ => []
  | .ok roles =>
      roles.map fun r =>
        { nspace := r.objectMeta.nspace
          name := r.objectMeta.name
          resourceType := "role"
          obj := extract (.roleVal r) }

/-- The namespaced-binding loop (`main.go` lines 233-247): for each kept
binding, write the binding, then the roles its role reference resolves
to. -/
def bindingWrites (src : ResourceSource) (bs : List RoleBinding) : List WriteEvent :=
  bs.flatMap fun b =>
    { nspace := b.objectMeta.nspace
      name := b.objectMeta.name
      resourceType := "binding"
      obj := extract (.roleBindingVal b) : WriteEvent } :: roleWritesFor src b

/-- The cluster-binding loop (`main.go` lines 264-276): write the
binding, then `Get` the referenced cluster role — `log.Fatal` (abort,
second component `true`) on error — then write the role (a pointer,
hence `clusterRolePtr`) and continue. -/
def processClusterBindings (src : ResourceSource) :
    List ClusterRoleBinding → List WriteEvent → List WriteEvent × Bool
  | [], acc => (acc, false)
  | b :: rest, acc =>
    let acc2 := acc ++
      [{ nspace := b.objectMeta.nspace
         name := b.objectMeta.name
         resourceType := "clusterbinding"
         obj := extract (.clusterRoleBindingVal b) }]
    match src.getClusterRole b.roleRef.name with
    | .error _ => (acc2, true)
    | .ok role =>
        processClusterBindings src rest (acc2 ++
          [{ nspace := role.objectMeta.nspace
             name := role.objectMeta.name
             resourceType := "clusterrole"
             obj := extract (.clusterRolePtr role) }])

/-- The fetch/filter/write pipeline of `main` (`main.go` lines 196-280),
after flag parsing and client construction.  Returns the ordered list of
writes performed and whether the run aborted via `log.Fatal` (non-zero
exit).  On abort the writes already performed are kept — partial output
stays on disk. -/
def runMain (src : ResourceSource) (roleRefString : String) :
    List WriteEvent × Bool :=
  match src.listDeployments with
  | .error _ => ([], true)
  | .ok deps =>
    let depWrites := deps.map fun d =>
      { nspace := d.objectMeta.nspace
        name := d.objectMeta.name
        resourceType := "deployment"
        obj := extract (.deploymentVal d) : WriteEvent }
    match src.listRoleBindings with
    | .error _ => (depWrites, true)
    | .ok bindings =>
      let userDefinedBindings :=
        bindings.filter fun b => containsUserDefined b.subjects roleRefString
      let bw := bindingWrites src userDefinedBindings
      match src.listClusterRoleBindings with
      | .error _ => (depWrites ++ bw, true)
      | .ok clusterBindings =>
        let userDefinedClusterBindings :=
          clusterBindings.filter fun b => containsUserDefined b.subjects roleRefString
        processClusterBindings src userDefinedClusterBindings (depWrites ++ bw)

/-! Concrete fixtures used by closed counterexample/witness theorems. -/

/-- A subject whose name contains the default pattern "OPSH". -/
def subjOPSH : Subject := { kind := "Group", name := "team-OPSH-dev" }

/-- A user-defined role binding in namespace `ns1` referencing role `X`. -/
def rb₀ : RoleBinding :=
  { objectMeta := { name := "rb0", nspace := "ns1" }
    subjects := [subjOPSH]
    roleRef := { kind := "Role", name := "X" } }

/-- A source whose secondary role-list fetch always fails while every
other call succeeds; it returns one kept role binding. -/
def src₀ : ResourceSource :=
  { listDeployments := .ok []
    listRoleBindings := .ok [rb₀]
    listRoles := fun _ _ => .error ()
    listClusterRoleBindings := .ok []
    getClusterRole := fun _ => .error () }

/-- A user-defined cluster role binding referencing a missing cluster
role. -/
def cb₀ : ClusterRoleBinding :=
  { objectMeta := { name := "cb0" }
    subjects := [subjOPSH]
    roleRef := { kind := "ClusterRole", name := "missing" } }

/-- A source whose cluster-role get always fails while the three list
calls succeed; it returns one kept cluster role binding. -/
def srcW : ResourceSource :=
  { listDeployments := .ok []
    listRoleBindings := .ok []
    listRoles := fun _ _ => .ok []
    listClusterRoleBindings := .ok [cb₀]
    getClusterRole := fun _ => .error () }

/-- A concrete pod. -/
def pod₀ : Pod := { objectMeta := { name := "p0", nspace := "ns1" }, spec := ⟨"podspec"⟩ }

/-- A concrete deployment with a server-populated resourceVersion. -/
def d₀ : Deployment :=
  { typeMeta := { kind := "Deployment", apiVersion := "apps/v1" }
    objectMeta := { name := "d0", nspace := "ns1", resourceVersion := "42" }
    spec := ⟨"depspec"⟩ }

/-- A scheme registry on which every lookup fails (no registered mapping
for any object), the failing input of the kind-annotation claim. -/
def objectKinds₀ : RuntimeObject → Except Unit (List GroupVersionKind) :=
  fun _ => .error ()

/-- A canonicalized deployment lacking type metadata. -/
def obj₀ : RuntimeObject := .deployment { objectMeta := { name := "d0" }, spec := ⟨"depspec"⟩ }

/-! Helper lemmas. -/

/-- `String.append` acts as list append on the underlying character
data. -/
theorem string_data_append (s t : String) : (s ++ t).data = s.data ++ t.data := rfl

/-- `startsWithList s pat` holds exactly when `pat` is an initial
segment of `s`. -/
theorem startsWithList_iff : ∀ (s pat : List Char),
    startsWithList s pat = true ↔ ∃ r, s = pat ++ r
  | s, [] => by simp [startsWithList]
  | [], c :: cs => by simp [startsWithList]
  | a :: as, c :: cs => by
    simp only [startsWithList, Bool.and_eq_true, decide_eq_true_eq,
      startsWithList_iff as cs, List.cons_append]
    constructor
    · rintro ⟨rfl, r, rfl⟩
      exact ⟨r, rfl⟩
    · rintro ⟨r, h⟩
      injection h with h1 h2
      exact ⟨h1, r, h2⟩

/-- `containsList s pat` holds exactly when `pat` occurs contiguously
inside `s`. -/
theorem containsList_iff : ∀ (s pat : List Char),
    containsList s pat = true ↔ ∃ l r, s = l ++ pat ++ r
  | [], pat => by
    constructor
    · intro h
      have hp : pat = [] := by
        cases pat with
        | nil => rfl
        | cons d ds => simp [containsList] at h
      exact ⟨[], [], by simp [hp]⟩
    · rintro ⟨l, r, h⟩
      have h2 := h.symm
      rw [List.append_eq_nil, List.append_eq_nil] at h2
      obtain ⟨⟨-, hp⟩, -⟩ := h2
      simp [containsList, hp]
  | c :: cs, pat => by
    rw [show containsList (c :: cs) pat
        = (startsWithList (c :: cs) pat || containsList cs pat) from rfl]
    rw [Bool.or_eq_true, startsWithList_iff, containsList_iff cs pat]
    constructor
    · rintro (⟨r, hr⟩ | ⟨l, r, hr⟩)
      · exact ⟨[], r, by simpa using hr⟩
      · exact ⟨c :: l, r, by simp [hr]⟩
    · rintro ⟨l, r, hr⟩
      cases l with
      | nil => exact Or.inl ⟨r, by simpa using hr⟩
      | cons x xs =>
        rw [List.cons_append, List.cons_append] at hr
        injection hr with h1 h2
        exact Or.inr ⟨xs, r, h2⟩

/-- The empty pattern occurs in every string. -/
theorem containsList_nil (s : List Char) : containsList s [] = true := by
  cases s <;> simp [containsList, startsWithList]

/-- `containsUserDefined` holds exactly when some subject of the list
has a matching name. -/
theorem containsUserDefined_iff : ∀ (subjects : List Subject) (p : String),
    containsUserDefined subjects p = true
      ↔ ∃ subj, subj ∈ subjects ∧ isUserDefined subj.name p = true
  | [], p => by simp [containsUserDefined]
  | subj :: rest, p => by
    rw [show containsUserDefined (subj :: rest) p
        = (if isUserDefined subj.name p then true else containsUserDefined rest p)
        from rfl]
    by_cases h : isUserDefined subj.name p = true
    · rw [if_pos (by simpa using h)]
      exact ⟨fun _ => ⟨subj, List.mem_cons_self subj rest, h⟩, fun _ => rfl⟩
    · rw [if_neg (by simpa using h), containsUserDefined_iff rest p]
      constructor
      · rintro ⟨x, hx, hP⟩
        exact ⟨x, List.mem_cons_of_mem _ hx, hP⟩
      · rintro ⟨x, hx, hP⟩
        rcases List.mem_cons.mp hx with rfl | hx'
        · exact absurd hP h
        · exact ⟨x, hx', hP⟩

/-- The abort flag of the cluster-binding loop does not depend on the
writes accumulated so far. -/
theorem processClusterBindings_snd_acc :
    ∀ (src : ResourceSource) (bs : List ClusterRoleBinding)
      (acc acc' : List WriteEvent),
      (processClusterBindings src bs acc).2 = (processClusterBindings src bs acc').2
  | _, [], _, _ => rfl
  | src, b :: rest, acc, acc' => by
    unfold processClusterBindings
    cases h : src.getClusterRole b.roleRef.name with
    | error e => rfl
    | ok role => exact processClusterBindings_snd_acc src rest _ _

/-- The cluster-binding loop consults the source only through
`getClusterRole`. -/
theorem processClusterBindings_congr (src src' : ResourceSource)
    (hg : src.getClusterRole = src'.getClusterRole) :
    ∀ (bs : List ClusterRoleBinding) (acc : List WriteEvent),
      processClusterBindings src bs acc = processClusterBindings src' bs acc
  | [], _ => rfl
  | b :: rest, acc => by
    unfold processClusterBindings
    rw [hg]
    cases h : src'.getClusterRole b.roleRef.name with
    | error e => rfl
    | ok role => exact processClusterBindings_congr src src' hg rest _

/-- An empty namespace routes the file under `non_namespaced`. -/
theorem flushFile_empty (root name rtype : String) :
    flushFile root "" name rtype = root ++ "/non_namespaced/" ++ rtype ++ "/" ++ name := by
  simp [flushFile, flushDir]

/-- The abort flag of the pipeline depends only on the outcomes of the
three list calls and of `getClusterRole`, never on `listRoles`. -/
theorem runMain_snd_congr (src src' : ResourceSource)
    (h1 : src.listDeployments = src'.listDeployments)
    (h2 : src.listRoleBindings = src'.listRoleBindings)
    (h3 : src.listClusterRoleBindings = src'.listClusterRoleBindings)
    (h4 : src.getClusterRole = src'.getClusterRole) (p : String) :
    (runMain src p).2 = (runMain src' p).2 := by
  unfold runMain
  rw [h1, h2, h3]
  cases hld : src'.listDeployments with
  | error e => rfl
  | ok deps =>
    cases hlrb : src'.listRoleBindings with
    | error e => rfl
    | ok bindings =>
      cases hlcrb : src'.listClusterRoleBindings with
      | error e => rfl
      | ok cbs =>
        dsimp only
        rw [processClusterBindings_congr src src' h4]
        exact processClusterBindings_snd_acc src' _ _ _

/-! Claim theorems. -/

/-- C1 (counterexample): the claim says the canonicalizer maps every kind
of the set {Pod, Secret, Deployment, Role, RoleBinding, ClusterRole,
ClusterRoleBinding} to a canonical object of the same kind.  It fails for
Pod: `extract` has no Pod case, so a concrete pod yields the "no object"
sentinel. -/
theorem extract_pod_counterexample_c1 : extract (.podVal pod₀) = none := rfl

/-- C1 (amended): for every kind in {Deployment, Role, RoleBinding,
ClusterRoleBinding} passed by value and for ClusterRole passed by
pointer, the canonicalizer produces a canonical minimal object of the
same kind, not the "no object" sentinel; the remaining two kinds of the
spec's set, Pod and Secret, always yield the sentinel. -/
theorem extract_supported_kinds_c1 :
    ∀ (d : Deployment) (rb : RoleBinding) (r : Role) (crb : ClusterRoleBinding)
      (cr : ClusterRole) (p : Pod) (s : Secret),
      (∃ d2, extract (.deploymentVal d) = some (.deployment d2))
      ∧ (∃ b2, extract (.roleBindingVal rb) = some (.roleBinding b2))
      ∧ (∃ r2, extract (.roleVal r) = some (.role r2))
      ∧ (∃ b2, extract (.clusterRoleBindingVal crb) = some (.clusterRoleBinding b2))
      ∧ (∃ r2, extract (.clusterRolePtr cr) = some (.clusterRole r2))
      ∧ extract (.podVal p) = none ∧ extract (.podPtr p) = none
      ∧ extract (.secretVal s) = none ∧ extract (.secretPtr s) = none :=
  fun _ _ _ _ _ _ _ =>
    ⟨⟨_, rfl⟩, ⟨_, rfl⟩, ⟨_, rfl⟩, ⟨_, rfl⟩, ⟨_, rfl⟩, rfl, rfl, rfl, rfl⟩

/-- C8: for every input whose kind is not among the supported kinds
(Pod and Secret, in either representation), the canonicalizer returns
the "no object" sentinel; `extract` is a total function, so it never
throws. -/
theorem extract_unsupported_none_c8 :
    ∀ (p : Pod) (s : Secret),
      extract (.podVal p) = none ∧ extract (.podPtr p) = none
      ∧ extract (.secretVal s) = none ∧ extract (.secretPtr s) = none :=
  fun _ _ => ⟨rfl, rfl, rfl, rfl⟩

/-- C10: the canonicalizer dispatches on the concrete representation:
Deployment, RoleBinding, Role and ClusterRoleBinding are recognized only
by value, ClusterRole only by pointer; a pointer to any of the first
four, or a ClusterRole by value, yields the sentinel. -/
theorem extract_dispatch_representation_c10 :
    ∀ (d : Deployment) (rb : RoleBinding) (r : Role) (crb : ClusterRoleBinding)
      (cr : ClusterRole),
      ((extract (.deploymentVal d)).isSome = true ∧ extract (.deploymentPtr d) = none)
      ∧ ((extract (.roleBindingVal rb)).isSome = true ∧ extract (.roleBindingPtr rb) = none)
      ∧ ((extract (.roleVal r)).isSome = true ∧ extract (.rolePtr r) = none)
      ∧ ((extract (.clusterRoleBindingVal crb)).isSome = true
          ∧ extract (.clusterRoleBindingPtr crb) = none)
      ∧ ((extract (.clusterRolePtr cr)).isSome = true ∧ extract (.clusterRoleVal cr) = none) :=
  fun _ _ _ _ _ => ⟨⟨rfl, rfl⟩, ⟨rfl, rfl⟩, ⟨rfl, rfl⟩, ⟨rfl, rfl⟩, ⟨rfl, rfl⟩⟩

/-- C7: every object the canonicalizer produces contains exactly the
identity and payload fields of its kind — the copied type descriptor,
labels, name, namespace where applicable, and the kind-specific payload —
while every other field (status, annotations, resourceVersion, uid,
creationTimestamp, aggregation rule) is the zero value. -/
theorem extract_minimal_fields_c7 :
    ∀ (d : Deployment) (rb : RoleBinding) (r : Role) (crb : ClusterRoleBinding)
      (cr : ClusterRole),
      extract (.deploymentVal d) = some (.deployment
        { typeMeta := d.typeMeta
          objectMeta := { name := d.objectMeta.name, nspace := d.objectMeta.nspace,
                          labels := d.objectMeta.labels, annotations := [],
                          resourceVersion := "", uid := "", creationTimestamp := "" }
          spec := d.spec
          status := { raw := "" } })
      ∧ extract (.roleBindingVal rb) = some (.roleBinding
        { typeMeta := rb.typeMeta
          objectMeta := { name := rb.objectMeta.name, nspace := rb.objectMeta.nspace,
                          labels := rb.objectMeta.labels, annotations := [],
                          resourceVersion := "", uid := "", creationTimestamp := "" }
          subjects := rb.subjects
          roleRef := rb.roleRef })
      ∧ extract (.roleVal r) = some (.role
        { typeMeta := r.typeMeta
          objectMeta := { name := r.objectMeta.name, nspace := r.objectMeta.nspace,
                          labels := r.objectMeta.labels, annotations := [],
                          resourceVersion := "", uid := "", creationTimestamp := "" }
          rules := r.rules })
      ∧ extract (.clusterRoleBindingVal crb) = some (.clusterRoleBinding
        { typeMeta := crb.typeMeta
          objectMeta := { name := crb.objectMeta.name, nspace := crb.objectMeta.nspace,
                          labels := crb.objectMeta.labels, annotations := [],
                          resourceVersion := "", uid := "", creationTimestamp := "" }
          subjects := crb.subjects
          roleRef := crb.roleRef })
      ∧ extract (.clusterRolePtr cr) = some (.clusterRole
        { typeMeta := cr.typeMeta
          objectMeta := { name := cr.objectMeta.name, nspace := "",
                          labels := cr.objectMeta.labels, annotations := [],
                          resourceVersion := "", uid := "", creationTimestamp := "" }
          rules := cr.rules
          aggregationRule := none }) :=
  fun _ _ _ _ _ => ⟨rfl, rfl, rfl, rfl, rfl⟩

/-- The canonical copy of `d₀` as `extract` produces it. -/
def d₀c : Deployment :=
  { typeMeta := { kind := "Deployment", apiVersion := "apps/v1" }
    objectMeta := { name := "d0", nspace := "ns1" }
    spec := ⟨"depspec"⟩ }

/-- C4 (counterexample): composing the canonicalizer with itself is NOT
a single application: the first application returns the object behind a
pointer (`DeepCopyObject`), and the Deployment case of the type switch
matches only the value representation, so the second application of the
concrete deployment `d₀` yields the sentinel instead of the canonical
object. -/
theorem extractTwice_counterexample_c4 :
    extract (.deploymentVal d₀) = some (.deployment d₀c)
    ∧ extractTwice (.deploymentVal d₀) = none := ⟨rfl, rfl⟩

/-- C4 (amended): canonicalizing twice equals canonicalizing once
exactly for ClusterRole inputs (passed by pointer, the one
representation the switch accepts for that kind, and the one
`DeepCopyObject` returns); for the four value-dispatched kinds the
second application yields the "no object" sentinel although the first
produced an object, because the first application's result is a
pointer. -/
theorem extract_idempotence_c4 :
    ∀ (cr : ClusterRole) (d : Deployment) (rb : RoleBinding) (r : Role)
      (crb : ClusterRoleBinding),
      extractTwice (.clusterRolePtr cr) = extract (.clusterRolePtr cr)
      ∧ ((∃ o, extract (.deploymentVal d) = some o)
          ∧ extractTwice (.deploymentVal d) = none)
      ∧ ((∃ o, extract (.roleBindingVal rb) = some o)
          ∧ extractTwice (.roleBindingVal rb) = none)
      ∧ ((∃ o, extract (.roleVal r) = some o)
          ∧ extractTwice (.roleVal r) = none)
      ∧ ((∃ o, extract (.clusterRoleBindingVal crb) = some o)
          ∧ extractTwice (.clusterRoleBindingVal crb) = none) :=
  fun _ _ _ _ _ =>
    ⟨rfl, ⟨⟨_, rfl⟩, rfl⟩, ⟨⟨_, rfl⟩, rfl⟩, ⟨⟨_, rfl⟩, rfl⟩, ⟨⟨_, rfl⟩, rfl⟩⟩

/-- C5: `isUserDefined s p` is true iff `p` occurs as a contiguous
case-sensitive substring of `s`; `containsUserDefined subjects p` is
true iff at least one subject of the ordered sequence has a name
satisfying `isUserDefined`; on the empty sequence it is false. -/
theorem subject_filter_spec_c5 :
    ∀ (s p : String) (subjects : List Subject),
      (isUserDefined s p = true ↔ ∃ l r : List Char, s.data = l ++ p.data ++ r)
      ∧ (containsUserDefined subjects p = true
          ↔ ∃ subj, subj ∈ subjects ∧ isUserDefined subj.name p = true)
      ∧ containsUserDefined [] p = false :=
  fun s p subjects =>
    ⟨containsList_iff s.data p.data, containsUserDefined_iff subjects p, rfl⟩

/-- C9: with the empty filter pattern, every subject sequence holding at
least one subject is classified user-defined, since the empty string is
a substring of every subject name. -/
theorem containsUserDefined_empty_pattern_c9 :
    ∀ (subjects : List Subject), subjects ≠ [] →
      containsUserDefined subjects "" = true := by
  intro subjects h
  cases subjects with
  | nil => exact absurd rfl h
  | cons subj rest =>
    have hc : isUserDefined subj.name "" = true := containsList_nil subj.name.data
    simp [containsUserDefined, hc]

/-- C9 witness: a concrete one-subject sequence, with a name not
containing the default pattern, is nevertheless kept under the empty
pattern. -/
theorem containsUserDefined_empty_pattern_witness_c9 :
    ([{ name := "team-dev" }] : List Subject) ≠ []
    ∧ containsUserDefined [{ name := "team-dev" }] "" = true :=
  ⟨by simp, containsUserDefined_empty_pattern_c9 [{ name := "team-dev" }] (by simp)⟩

/-- C6: a flushed object with non-empty namespace is written to
`<root>/namespaces/<ns>/<type>/<name>`; with empty namespace to
`<root>/non_namespaced/<type>/<name>`, which in particular never lies
under the `<root>/namespaces/` subtree. -/
theorem flush_path_spec_c6 :
    ∀ (root nspace name rtype : String),
      (nspace ≠ "" →
        flushFile root nspace name rtype
          = root ++ "/namespaces/" ++ nspace ++ "/" ++ rtype ++ "/" ++ name)
      ∧ flushFile root "" name rtype
          = root ++ "/non_namespaced/" ++ rtype ++ "/" ++ name
      ∧ ∀ rest, flushFile root "" name rtype ≠ root ++ "/namespaces/" ++ rest := by
  intro root nspace name rtype
  refine ⟨?_, flushFile_empty root name rtype, ?_⟩
  · intro h
    simp [flushFile, flushDir, h]
  · intro rest h
    rw [flushFile_empty] at h
    have h1 := congrArg String.data h
    simp only [string_data_append, List.append_assoc] at h1
    have h2 := List.append_cancel_left h1
    have h3 := congrArg (List.take 11) h2
    rw [List.take_append_of_le_length (by decide),
      List.take_append_of_le_length (by decide)] at h3
    exact absurd h3 (by decide)

/-- C6 witness: concrete paths for a namespaced and the corresponding
layout. -/
theorem flush_path_witness_c6 :
    ("ns1" : String) ≠ ""
    ∧ flushFile "out" "ns1" "obj" "deployment"
        = "out" ++ "/namespaces/" ++ "ns1" ++ "/" ++ "deployment" ++ "/" ++ "obj" :=
  ⟨by decide, (flush_path_spec_c6 "out" "ns1" "obj" "deployment").1 (by decide)⟩

/-- C3 (code bug): the spec requires the kind-lookup error to be
surfaced to the caller of the serialization step.  In the code,
`addTypeInformationToObject` does return the error, but `toYaml`
discards it and hands the still-unannotated object to the serializer:
on a registry with no mapping for the object, annotation fails yet the
object passed to `Encode` is the unchanged input. -/
theorem toYaml_lookup_error_ignored_c3 :
    addTypeInformationToObject objectKinds₀ obj₀ = .error ()
    ∧ toYamlEncoded objectKinds₀ obj₀ = obj₀ := ⟨rfl, rfl⟩

/-- C2 (counterexample): the claim says every fetch failure — including
the secondary per-binding fetch of the referenced roles — aborts the run
with a non-zero exit.  On `src₀` the role-list fetch for the one kept
binding fails, yet the run completes without abort (flag `false`),
having written the binding and silently skipped its roles. -/
theorem runMain_role_list_failure_counterexample_c2 :
    src₀.listRoles "ns1" "X" = .error ()
    ∧ runMain src₀ "OPSH"
        = ([{ nspace := "ns1", name := "rb0", resourceType := "binding",
              obj := extract (.roleBindingVal rb₀) }], false) := ⟨rfl, rfl⟩

/-- C2 (amended): a failure of any of the three top-level list fetches
is fatal (abort with non-zero exit; writes performed before the failure
are kept on disk), and a failure of the cluster-role get reached for a
kept cluster binding is fatal; the one exception is the secondary
per-binding namespaced role-list fetch, whose error the code discards
(`roles, _ := ...`), so it never influences whether the run aborts — that
binding's roles are simply not written. -/
theorem runMain_fetch_failure_semantics_c2 :
    ∀ (src : ResourceSource) (p : String),
      (src.listDeployments = .error () → runMain src p = ([], true))
      ∧ (src.listRoleBindings = .error () → (runMain src p).2 = true)
      ∧ (src.listClusterRoleBindings = .error () → (runMain src p).2 = true)
      ∧ (∀ deps, src.listDeployments = .ok deps → src.listRoleBindings = .error () →
          runMain src p
            = (deps.map fun d =>
                { nspace := d.objectMeta.nspace, name := d.objectMeta.name,
                  resourceType := "deployment", obj := extract (.deploymentVal d) },
               true))
      ∧ (∀ f, (runMain { src with listRoles := f } p).2 = (runMain src p).2)
      ∧ (∀ cbs b rest,
          src.listClusterRoleBindings = .ok cbs →
          cbs.filter (fun b2 => containsUserDefined b2.subjects p) = b :: rest →
          src.getClusterRole b.roleRef.name = .error () →
          (runMain src p).2 = true) := by
  intro src p
  refine ⟨?_, ?_, ?_, ?_, ?_, ?_⟩
  · intro h
    unfold runMain
    rw [h]
  · intro h
    unfold runMain
    cases hld : src.listDeployments with
    | error e => rfl
    | ok deps => rw [h]
  · intro h
    unfold runMain
    cases hld : src.listDeployments with
    | error e => rfl
    | ok deps =>
      cases hlrb : src.listRoleBindings with
      | error e => rfl
      | ok bindings => rw [h]
  · intro deps h1 h2
    unfold runMain
    rw [h1, h2]
  · intro f
    exact runMain_snd_congr { src with listRoles := f } src rfl rfl rfl rfl p
  · intro cbs b rest h3 hf hg
    unfold runMain
    cases hld : src.listDeployments with
    | error e => rfl
    | ok deps =>
      cases hlrb : src.listRoleBindings with
      | error e => rfl
      | ok bindings =>
        rw [h3]
        dsimp only
        rw [hf]
        unfold processClusterBindings
        rw [hg]

/-- C2 witness: on `srcW` the three list fetches succeed, the one
cluster binding is kept by the filter, its cluster-role get fails, and
the run aborts. -/
theorem runMain_fetch_failure_witness_c2 :
    srcW.listClusterRoleBindings = .ok [cb₀]
    ∧ [cb₀].filter (fun b2 => containsUserDefined b2.subjects "OPSH") = [cb₀]
    ∧ srcW.getClusterRole cb₀.roleRef.name = .error ()
    ∧ (runMain srcW "OPSH").2 = true :=
  ⟨rfl, rfl, rfl,
    (runMain_fetch_failure_semantics_c2 srcW "OPSH").2.2.2.2.2 [cb₀] cb₀ [] rfl rfl rfl⟩
